import Mathlib

/-!
Verification of the FormBridge Python SDK's request/retry engine
(`src/sdk/python/src/formbridge/client.py`), error taxonomy
(`errors.py`) and response parsing (`types.py`), as a shallow
embedding in Lean.

Modelling conventions:
* JSON values are the inductive `Json`; Python `dict.get` is `dictGet`.
* One HTTP attempt's outcome (what `self._http.request(...)` together
  with `resp.json()` can do on attempt `i`) is `AttemptOutcome`:
  a connection-class exception (`httpx.ConnectError`,
  `httpx.TimeoutException`, `httpx.ConnectTimeout`), a response with a
  status code and a body that either decodes to JSON or raises on
  `resp.json()`, or any other exception from the transport.
* The transport is a function `Nat → AttemptOutcome` giving the outcome
  of each attempt index of one logical call; the method, path and JSON
  body arguments are threaded (they configure the HTTP layer that the
  transport function abstracts).
* Backoff durations in seconds are rationals.
* The `for attempt in range(1 + len(backoffs))` loop is `requestGo`,
  recursing on the number of remaining iterations; the code after the
  loop (lines 289-295 of client.py) is the `remaining = 0` branch, and
  results record a `fromFallback` flag so that reachability of that
  branch is a provable question rather than a modelling artifact.
-/

namespace FormBridge

/-- A JSON value as decoded by Python's `json` module: objects are kept
as association lists with distinct keys. -/
inductive Json where
  | null
  | bool (b : Bool)
  | num (n : Int)
  | str (s : String)
  | arr (xs : List Json)
  | obj (kvs : List (String × Json))

/-- Python `dict.get(k)` on the association list of an object. -/
def dictGet (kvs : List (String × Json)) (k : String) : Option Json :=
  match kvs with
  | [] => none
  | (k', v) :: rest => if k' = k then some v else dictGet rest k

/-- Python truthiness of a JSON value (`if not sub.intake_id`,
`if fields:`, ...). -/
def Json.truthy : Json → Bool
  | .null => false
  | .bool b => b
  | .num n => n != 0
  | .str s => s != ""
  | .arr xs => !xs.isEmpty
  | .obj kvs => !kvs.isEmpty

/-- `FormBridgeError` from `errors.py`.  The `message` is kept as a JSON
value because the API-error path passes `error_info.get("message", ...)`,
which can be any decoded value. -/
structure FormBridgeError where
  message : Json
  status_code : Option Nat := none
  error_type : Option Json := none
  is_connectivity_error : Bool := false
  response_data : Option Json := none

/-- Outcome of a single HTTP attempt as observed by `_request`. -/
inductive AttemptOutcome where
  | connError (exc : String)
  | response (status : Nat) (body : Except String Json)
  | otherExc (exc : String)

/-- Terminal outcome of `_request`: a returned decoded body, a raised
`FormBridgeError`, or the `RuntimeError` of the post-loop fallback. -/
inductive ReqOutcome where
  | ok (data : Json)
  | fbError (e : FormBridgeError)
  | runtimeExhausted

/-- Status code carried by a raised error, when the outcome is one. -/
def ReqOutcome.statusCodeOf : ReqOutcome → Option Nat
  | .fbError e => e.status_code
  | _ => none

/-- Connectivity flag carried by a raised error, when the outcome is one. -/
def ReqOutcome.connFlagOf : ReqOutcome → Bool
  | .fbError e => e.is_connectivity_error
  | _ => false

/-- Result of one `_request` call, instrumented with the number of HTTP
attempts issued, the backoff sleeps performed in order, and whether the
post-loop fallback code executed. -/
structure RequestResult where
  outcome : ReqOutcome
  attempts : Nat
  sleeps : List ℚ
  fromFallback : Bool

/-- `_RETRY_BACKOFFS = [0.5, 1.0, 2.0]` (client.py line 30). -/
def _RETRY_BACKOFFS : List ℚ := [1/2, 1, 2]

/-- `_RETRYABLE_STATUS = {429, 500, 502, 503, 504}` (client.py line 31). -/
def _RETRYABLE_STATUS : List Nat := [429, 500, 502, 503, 504]

/-- The error raised by `except Exception as exc` (client.py 283-287). -/
def unexpectedError (exc : String) : FormBridgeError :=
  { message := .str ("Unexpected error: " ++ exc), is_connectivity_error := true }

/-- The error raised when connection retries are exhausted
(client.py 279-282). -/
def connectionFailed (exc : String) : FormBridgeError :=
  { message := .str ("Connection failed: " ++ exc), is_connectivity_error := true }

/-- The error raised by the defensive post-loop path (client.py 290-294). -/
def connectionFailedAfterRetries (exc : String) : FormBridgeError :=
  { message := .str ("Connection failed after retries: " ++ exc),
    is_connectivity_error := true }

/-- `error_info = data.get("error", {}) if isinstance(data, dict) else {}`
(client.py line 255). -/
def errorInfoOf (data : Json) : Json :=
  match data with
  | .obj kvs => (dictGet kvs "error").getD (.obj [])
  | _ => .obj []

/-- The API error built at client.py lines 256-261, given that
`error_info` is the object `ekvs` (so that its `.get` calls succeed). -/
def apiError (status : Nat) (data : Json) (ekvs : List (String × Json)) :
    FormBridgeError :=
  { message := (dictGet ekvs "message").getD (.str ("HTTP " ++ toString status)),
    status_code := some status,
    error_type := dictGet ekvs "type",
    is_connectivity_error := false,
    response_data := some data }

/-- Lines 252-263 of client.py for a decoded body `data`: if the status
is at least 400, build and raise the API error — where, if `error_info`
is not a dict, its `.get` raises `AttributeError`, which the enclosing
`except Exception` wraps — else return the body. -/
def handleBody (status : Nat) (data : Json) (attempts : Nat)
    (sleeps : List ℚ) : RequestResult :=
  if 400 ≤ status then
    match errorInfoOf data with
    | .obj ekvs => ⟨.fbError (apiError status data ekvs), attempts, sleeps, false⟩
    | _ => ⟨.fbError (unexpectedError "AttributeError"), attempts, sleeps, false⟩
  else ⟨.ok data, attempts, sleeps, false⟩

/-- The body of `for attempt in range(1 + len(backoffs))` of
`FormBridgeClient._request` (client.py 237-295).  `remaining` counts the
loop iterations still to run (initially `1 + backoffs.length`); the
`remaining = 0` branch is the code after the loop. -/
def requestGo (t : Nat → AttemptOutcome) (backoffs : List ℚ)
    (attempt remaining : Nat) (lastExc : Option String)
    (sleeps : List ℚ) : RequestResult :=
  match remaining with
  | 0 =>
    match lastExc with
    | some e => ⟨.fbError (connectionFailedAfterRetries e), attempt, sleeps, true⟩
    | none => ⟨.runtimeExhausted, attempt, sleeps, true⟩
  | r + 1 =>
    match t attempt with
    | .connError exc =>
      if attempt < backoffs.length then
        requestGo t backoffs (attempt + 1) r (some exc)
          (sleeps ++ [backoffs.getD attempt 0])
      else
        ⟨.fbError (connectionFailed exc), attempt + 1, sleeps, false⟩
    | .otherExc exc => ⟨.fbError (unexpectedError exc), attempt + 1, sleeps, false⟩
    | .response status body =>
      if status ∈ _RETRYABLE_STATUS ∧ attempt < backoffs.length then
        requestGo t backoffs (attempt + 1) r lastExc
          (sleeps ++ [backoffs.getD attempt 0])
      else
        match body with
        | .error exc => ⟨.fbError (unexpectedError exc), attempt + 1, sleeps, false⟩
        | .ok data => handleBody status data (attempt + 1) sleeps

/-- `FormBridgeClient._request` (client.py 226-295).  The method, path
and JSON body configure the HTTP layer abstracted by `t` and do not
otherwise influence the retry logic. -/
def _request (maxRetries : Nat) (method path : String)
    (json_data : Option Json) (t : Nat → AttemptOutcome) : RequestResult :=
  let backoffs := _RETRY_BACKOFFS.take maxRetries
  requestGo t backoffs 0 (1 + backoffs.length) none []

/-- `Actor` from types.py. -/
structure Actor where
  kind : String
  id : String
  name : Option String := none

/-- `_serialize_actor` (client.py 34-40) on a present actor. -/
def _serialize_actor (a : Actor) : Json :=
  .obj ([("kind", .str a.kind), ("id", .str a.id)] ++
    (match a.name with
     | some n => [("name", .str n)]
     | none => []))

/-- The request body built by `create_submission` (client.py 110-117). -/
def createBody (fields : Option Json) (actor : Option Actor)
    (idempotency_key : Option String) : Json :=
  .obj ((match fields with
         | some f => if f.truthy then [("fields", f)] else []
         | none => []) ++
        (match actor with
         | some a => [("actor", _serialize_actor a)]
         | none => []) ++
        (match idempotency_key with
         | some k => if k ≠ "" then [("idempotencyKey", .str k)] else []
         | none => []))

/-- `Submission` from types.py.  Fields are kept as JSON values because
the Python dataclass does not validate the wire types it receives. -/
structure Submission where
  submission_id : Json
  intake_id : Json
  state : Json
  resume_token : Option Json
  fields : Json
  missing_fields : Option Json
  schema : Option Json
  created_at : Option Json
  updated_at : Option Json
  raw : Json

/-- `Submission.from_response` (types.py 33-51) on the items of the
response dict. -/
def Submission.from_response (kvs : List (String × Json)) : Submission :=
  { submission_id := (dictGet kvs "submissionId").getD (.str ""),
    intake_id := (dictGet kvs "intakeId").getD (.str ""),
    state := (dictGet kvs "state").getD (.str ""),
    resume_token := dictGet kvs "resumeToken",
    fields := (dictGet kvs "fields").getD (.obj []),
    missing_fields := dictGet kvs "missingFields",
    schema := dictGet kvs "schema",
    created_at :=
      match dictGet kvs "metadata" with
      | some (.obj mkvs) => dictGet mkvs "createdAt"
      | _ => dictGet kvs "createdAt",
    updated_at :=
      match dictGet kvs "metadata" with
      | some (.obj mkvs) => dictGet mkvs "updatedAt"
      | _ => dictGet kvs "updatedAt",
    raw := .obj kvs }

/-- Result of a domain-layer operation: the typed value, a raised
`FormBridgeError`, or a non-`FormBridgeError` Python exception
propagating (`AttributeError` from parsing a non-dict body, or the
fallback `RuntimeError`). -/
inductive CallResult (α : Type) where
  | ok (a : α)
  | raised (e : FormBridgeError)
  | pyException (msg : String)

/-- The submission carried by an `ok` result, when there is one. -/
def CallResult.submissionOf : CallResult Submission → Option Submission
  | .ok s => some s
  | _ => none

/-- `FormBridgeClient.create_submission` (client.py 88-134): build the
body, call `_request`, parse, and back-fill `intake_id` when the
response left it falsy. -/
def create_submission (maxRetries : Nat) (intake_id : String)
    (fields : Option Json) (actor : Option Actor)
    (idempotency_key : Option String) (t : Nat → AttemptOutcome) :
    CallResult Submission :=
  let body := createBody fields actor idempotency_key
  let res := _request maxRetries "POST" ("/intake/" ++ intake_id ++ "/submissions")
    (some body) t
  match res.outcome with
  | .ok (.obj kvs) =>
    let sub := Submission.from_response kvs
    if sub.intake_id.truthy then .ok sub
    else .ok { sub with intake_id := .str intake_id }
  | .ok _ => .pyException "AttributeError"
  | .fbError e => .raised e
  | .runtimeExhausted => .pyException "RuntimeError"

/-- `FormBridgeClient.get_submission` (client.py 202-222). -/
def get_submission (maxRetries : Nat) (intake_id submission_id : String)
    (t : Nat → AttemptOutcome) : CallResult Submission :=
  let res := _request maxRetries "GET"
    ("/intake/" ++ intake_id ++ "/submissions/" ++ submission_id) none t
  match res.outcome with
  | .ok (.obj kvs) => .ok (Submission.from_response kvs)
  | .ok _ => .pyException "AttributeError"
  | .fbError e => .raised e
  | .runtimeExhausted => .pyException "RuntimeError"

/-- An attempt outcome on which the loop retries when a backoff is still
available: a connection-class exception, or a response with a retryable
status code. -/
def RetryOutcome (o : AttemptOutcome) : Prop :=
  (∃ e, o = .connError e) ∨
  (∃ s b, o = .response s b ∧ s ∈ _RETRYABLE_STATUS)

/-! ### Concrete transports for the spec's scenarios -/

/-- Body of a 502 error response, as in the repository's
`test_retry_5xx_then_fail`. -/
def body502 : Json :=
  .obj [("ok", .bool false),
        ("error", .obj [("type", .str "bad_gateway"), ("message", .str "down")])]

/-- Transport answering 502 on every attempt. -/
def t502 : Nat → AttemptOutcome := fun _ => .response 502 (.ok body502)

/-- Transport raising `httpx.ConnectError` on every attempt. -/
def tConnRefused : Nat → AttemptOutcome := fun _ => .connError "Connection refused"

/-- Transport answering 401 whose body is not valid JSON, so that
`resp.json()` raises. -/
def t401html : Nat → AttemptOutcome :=
  fun _ => .response 401 (.error "Expecting value: line 1 column 1 (char 0)")

/-- Body of a 401 error response, as in the repository's
`test_no_retry_on_client_errors`. -/
def body401 : Json :=
  .obj [("ok", .bool false),
        ("error", .obj [("type", .str "unauthorized"), ("message", .str "bad key")])]

/-- Transport answering a well-formed 401 on every attempt. -/
def t401json : Nat → AttemptOutcome := fun _ => .response 401 (.ok body401)

/-- Body of the 200 response of the `[429, 429, 200]` scenario. -/
def body200 : Json :=
  .obj [("ok", .bool true), ("submissionId", .str "s1"), ("intakeId", .str "v"),
        ("state", .str "draft"), ("fields", .obj [])]

/-- Transport answering 429 twice and then 200 with `submissionId` `s1`. -/
def t429seq : Nat → AttemptOutcome := fun j =>
  if j < 2 then
    .response 429 (.ok (.obj [("ok", .bool false),
      ("error", .obj [("type", .str "rate_limited")])]))
  else .response 200 (.ok body200)

/-- Transport answering 200 with a body that is not valid JSON. -/
def tDecodeFail : Nat → AttemptOutcome :=
  fun _ => .response 200 (.error "Expecting value: line 1 column 1 (char 0)")

/-- Transport answering 400 whose decoded body has a non-dict `error`
member, so that `error_info.get(...)` raises `AttributeError`. -/
def t400strErr : Nat → AttemptOutcome :=
  fun _ => .response 400 (.ok (.obj [("ok", .bool false), ("error", .str "oops")]))

/-- Body of a well-formed 400 error response. -/
def body400 : Json :=
  .obj [("ok", .bool false),
        ("error", .obj [("type", .str "validation"), ("message", .str "bad request")])]

/-- Transport answering a well-formed 400 on every attempt. -/
def t400json : Nat → AttemptOutcome := fun _ => .response 400 (.ok body400)

/-- Items of a create-submission success body that omits `intakeId`, as
in the repository's `test_sync_client_create`. -/
def kvsCreate : List (String × Json) :=
  [("ok", .bool true), ("submissionId", .str "sub_sync"),
   ("state", .str "draft"), ("resumeToken", .str "tok_s")]

/-- Transport answering 201 with a body that omits `intakeId`. -/
def tCreate : Nat → AttemptOutcome := fun _ => .response 201 (.ok (.obj kvsCreate))

/-! ### Helper lemmas about the retry loop -/

theorem retryable_ge_400 {s : Nat} (h : s ∈ _RETRYABLE_STATUS) : 400 ≤ s := by
  simp [_RETRYABLE_STATUS] at h
  rcases h with rfl | rfl | rfl | rfl | rfl <;> omega

theorem lt_400_not_retryable {s : Nat} (h : s < 400) : s ∉ _RETRYABLE_STATUS := by
  intro hmem
  exact absurd (retryable_ge_400 hmem) (by omega)

theorem handleBody_attempts (s : Nat) (d : Json) (n : Nat) (sl : List ℚ) :
    (handleBody s d n sl).attempts = n := by
  unfold handleBody
  split
  · split <;> rfl
  · rfl

theorem handleBody_sleeps (s : Nat) (d : Json) (n : Nat) (sl : List ℚ) :
    (handleBody s d n sl).sleeps = sl := by
  unfold handleBody
  split
  · split <;> rfl
  · rfl

theorem handleBody_fromFallback (s : Nat) (d : Json) (n : Nat) (sl : List ℚ) :
    (handleBody s d n sl).fromFallback = false := by
  unfold handleBody
  split
  · split <;> rfl
  · rfl

theorem handleBody_ok_or_error (s : Nat) (d : Json) (n : Nat) (sl : List ℚ) :
    (∃ d', (handleBody s d n sl).outcome = .ok d') ∨
    (∃ e, (handleBody s d n sl).outcome = .fbError e) := by
  unfold handleBody
  split
  · split
    · exact .inr ⟨_, rfl⟩
    · exact .inr ⟨_, rfl⟩
  · exact .inl ⟨_, rfl⟩

theorem handleBody_error (s : Nat) (d : Json) (n : Nat) (sl : List ℚ)
    (h : 400 ≤ s) : ∃ e, (handleBody s d n sl).outcome = .fbError e := by
  unfold handleBody
  rw [if_pos h]
  split
  · exact ⟨_, rfl⟩
  · exact ⟨_, rfl⟩

theorem handleBody_flag_iff (s : Nat) (d : Json) (n : Nat) (sl : List ℚ)
    (e : FormBridgeError) (h : (handleBody s d n sl).outcome = .fbError e) :
    (e.is_connectivity_error = true ↔ e.status_code = none) := by
  unfold handleBody at h
  split at h
  · split at h
    · injection h with h'
      subst h'
      simp [apiError]
    · injection h with h'
      subst h'
      simp [unexpectedError]
  · exact absurd h (by simp)

theorem requestGo_zero (t : Nat → AttemptOutcome) (B : List ℚ) (a : Nat)
    (l : Option String) (s : List ℚ) :
    (requestGo t B a 0 l s).fromFallback = true := by
  unfold requestGo
  match l with
  | some e => rfl
  | none => rfl

theorem requestGo_succ_conn {t : Nat → AttemptOutcome} {B : List ℚ}
    {a : Nat} {exc : String} (r : Nat) (l : Option String) (s : List ℚ)
    (ht : t a = .connError exc) (ha : a < B.length) :
    requestGo t B a (r + 1) l s =
      requestGo t B (a + 1) r (some exc) (s ++ [B.getD a 0]) := by
  rw [requestGo, ht]
  exact if_pos ha

theorem requestGo_succ_retry {t : Nat → AttemptOutcome} {B : List ℚ}
    {a st : Nat} {bd : Except String Json} (r : Nat) (l : Option String)
    (s : List ℚ) (ht : t a = .response st bd)
    (hst : st ∈ _RETRYABLE_STATUS) (ha : a < B.length) :
    requestGo t B a (r + 1) l s =
      requestGo t B (a + 1) r l (s ++ [B.getD a 0]) := by
  rw [requestGo, ht]
  exact if_pos ⟨hst, ha⟩

theorem requestGo_term_conn {t : Nat → AttemptOutcome} {B : List ℚ}
    {a : Nat} {exc : String} (r : Nat) (l : Option String) (s : List ℚ)
    (ht : t a = .connError exc) (ha : ¬ a < B.length) :
    requestGo t B a (r + 1) l s =
      ⟨.fbError (connectionFailed exc), a + 1, s, false⟩ := by
  rw [requestGo, ht]
  exact if_neg ha

theorem requestGo_term_other {t : Nat → AttemptOutcome} {B : List ℚ}
    {a : Nat} {exc : String} (r : Nat) (l : Option String) (s : List ℚ)
    (ht : t a = .otherExc exc) :
    requestGo t B a (r + 1) l s =
      ⟨.fbError (unexpectedError exc), a + 1, s, false⟩ := by
  rw [requestGo, ht]

theorem requestGo_term_ok {t : Nat → AttemptOutcome} {B : List ℚ}
    {a st : Nat} {d : Json} (r : Nat) (l : Option String) (s : List ℚ)
    (ht : t a = .response st (.ok d))
    (hg : ¬ (st ∈ _RETRYABLE_STATUS ∧ a < B.length)) :
    requestGo t B a (r + 1) l s = handleBody st d (a + 1) s := by
  rw [requestGo, ht]
  exact if_neg hg

theorem requestGo_term_badjson {t : Nat → AttemptOutcome} {B : List ℚ}
    {a st : Nat} {exc : String} (r : Nat) (l : Option String) (s : List ℚ)
    (ht : t a = .response st (.error exc))
    (hg : ¬ (st ∈ _RETRYABLE_STATUS ∧ a < B.length)) :
    requestGo t B a (r + 1) l s =
      ⟨.fbError (unexpectedError exc), a + 1, s, false⟩ := by
  rw [requestGo, ht]
  exact if_neg hg

theorem requestGo_attempts_le (t : Nat → AttemptOutcome) (B : List ℚ) :
    ∀ (r a : Nat) (l : Option String) (s : List ℚ),
      (requestGo t B a r l s).attempts ≤ a + r := by
  intro r
  induction r with
  | zero =>
    intro a l s
    unfold requestGo
    match l with
    | some e => simp
    | none => simp
  | succ r ih =>
    intro a l s
    cases ht : t a with
    | connError exc =>
      by_cases ha : a < B.length
      · rw [requestGo_succ_conn r l s ht ha]
        have := ih (a + 1) (some exc) (s ++ [B.getD a 0])
        omega
      · rw [requestGo_term_conn r l s ht ha]
        show a + 1 ≤ a + (r + 1)
        omega
    | otherExc exc =>
      rw [requestGo_term_other r l s ht]
      show a + 1 ≤ a + (r + 1)
      omega
    | response st bd =>
      by_cases hg : st ∈ _RETRYABLE_STATUS ∧ a < B.length
      · rw [requestGo_succ_retry r l s ht hg.1 hg.2]
        have := ih (a + 1) l (s ++ [B.getD a 0])
        omega
      · cases bd with
        | ok d =>
          rw [requestGo_term_ok r l s ht hg, handleBody_attempts]
          omega
        | error exc =>
          rw [requestGo_term_badjson r l s ht hg]
          show a + 1 ≤ a + (r + 1)
          omega

theorem requestGo_safe (t : Nat → AttemptOutcome) (B : List ℚ) :
    ∀ (r a : Nat) (l : Option String) (s : List ℚ),
      a + r = 1 + B.length → 1 ≤ r →
      (requestGo t B a r l s).fromFallback = false ∧
      ((∃ d, (requestGo t B a r l s).outcome = .ok d) ∨
       (∃ e, (requestGo t B a r l s).outcome = .fbError e)) := by
  intro r
  induction r with
  | zero => intro a l s _ h1; omega
  | succ r ih =>
    intro a l s hinv _
    cases ht : t a with
    | connError exc =>
      by_cases ha : a < B.length
      · rw [requestGo_succ_conn r l s ht ha]
        exact ih (a + 1) (some exc) (s ++ [B.getD a 0]) (by omega) (by omega)
      · rw [requestGo_term_conn r l s ht ha]
        exact ⟨rfl, .inr ⟨_, rfl⟩⟩
    | otherExc exc =>
      rw [requestGo_term_other r l s ht]
      exact ⟨rfl, .inr ⟨_, rfl⟩⟩
    | response st bd =>
      by_cases hg : st ∈ _RETRYABLE_STATUS ∧ a < B.length
      · rw [requestGo_succ_retry r l s ht hg.1 hg.2]
        exact ih (a + 1) l (s ++ [B.getD a 0]) (by omega) (by omega)
      · cases bd with
        | ok d =>
          rw [requestGo_term_ok r l s ht hg]
          exact ⟨handleBody_fromFallback _ _ _ _, handleBody_ok_or_error _ _ _ _⟩
        | error exc =>
          rw [requestGo_term_badjson r l s ht hg]
          exact ⟨rfl, .inr ⟨_, rfl⟩⟩

theorem requestGo_flag_iff (t : Nat → AttemptOutcome) (B : List ℚ) :
    ∀ (r a : Nat) (l : Option String) (s : List ℚ) (e : FormBridgeError),
      (requestGo t B a r l s).outcome = .fbError e →
      (e.is_connectivity_error = true ↔ e.status_code = none) := by
  intro r
  induction r with
  | zero =>
    intro a l s e h
    unfold requestGo at h
    match l with
    | some ex =>
      injection h with h'
      subst h'
      simp [connectionFailedAfterRetries]
    | none => exact absurd h (by simp)
  | succ r ih =>
    intro a l s e h
    cases ht : t a with
    | connError exc =>
      by_cases ha : a < B.length
      · rw [requestGo_succ_conn r l s ht ha] at h
        exact ih (a + 1) (some exc) (s ++ [B.getD a 0]) e h
      · rw [requestGo_term_conn r l s ht ha] at h
        injection h with h'
        subst h'
        simp [connectionFailed]
    | otherExc exc =>
      rw [requestGo_term_other r l s ht] at h
      injection h with h'
      subst h'
      simp [unexpectedError]
    | response st bd =>
      by_cases hg : st ∈ _RETRYABLE_STATUS ∧ a < B.length
      · rw [requestGo_succ_retry r l s ht hg.1 hg.2] at h
        exact ih (a + 1) l (s ++ [B.getD a 0]) e h
      · cases bd with
        | ok d =>
          rw [requestGo_term_ok r l s ht hg] at h
          exact handleBody_flag_iff _ _ _ _ _ h
        | error exc =>
          rw [requestGo_term_badjson r l s ht hg] at h
          injection h with h'
          subst h'
          simp [unexpectedError]

theorem requestGo_reach (t : Nat → AttemptOutcome) (B : List ℚ) :
    ∀ (i a r : Nat) (l : Option String) (s : List ℚ),
      a + r = 1 + B.length → a + i ≤ B.length →
      (∀ j, a ≤ j → j < a + i → RetryOutcome (t j)) →
      ∃ l', requestGo t B a r l s =
        requestGo t B (a + i) (r - i) l' (s ++ (B.drop a).take i) := by
  intro i
  induction i with
  | zero =>
    intro a r l s _ _ _
    exact ⟨l, by simp⟩
  | succ i ih =>
    intro a r l s hinv hai hpre
    have ha : a < B.length := by omega
    obtain ⟨r', rfl⟩ : ∃ r', r = r' + 1 := ⟨r - 1, by omega⟩
    have hdrop : (B.drop a).take (i + 1) = B.getD a 0 :: (B.drop (a + 1)).take i := by
      rw [List.drop_eq_getElem_cons ha, List.getD_eq_getElem _ _ ha]
      rfl
    have hind : a + 1 + i = a + (i + 1) := by omega
    have hrem : r' - i = r' + 1 - (i + 1) := by omega
    have hpre' : ∀ j, a + 1 ≤ j → j < a + 1 + i → RetryOutcome (t j) :=
      fun j h1 h2 => hpre j (by omega) (by omega)
    have hsl : ∀ x : List ℚ, (x ++ [B.getD a 0]) ++ (B.drop (a + 1)).take i =
        x ++ (B.drop a).take (i + 1) := by
      intro x
      rw [hdrop]
      simp
    rcases hpre a le_rfl (by omega) with ⟨exc, hexc⟩ | ⟨st, bd, hresp, hst⟩
    · obtain ⟨l', hl'⟩ := ih (a + 1) r' (some exc) (s ++ [B.getD a 0])
        (by omega) (by omega) hpre'
      refine ⟨l', ?_⟩
      rw [requestGo_succ_conn r' l s hexc ha, hl', hsl, hind, hrem]
    · obtain ⟨l', hl'⟩ := ih (a + 1) r' l (s ++ [B.getD a 0])
        (by omega) (by omega) hpre'
      refine ⟨l', ?_⟩
      rw [requestGo_succ_retry r' l s hresp hst ha, hl', hsl, hind, hrem]

theorem handleBody_api {d : Json} {ekvs : List (String × Json)} (s n : Nat)
    (sl : List ℚ) (herr : errorInfoOf d = .obj ekvs) (h4 : 400 ≤ s) :
    (handleBody s d n sl).outcome = .fbError (apiError s d ekvs) := by
  unfold handleBody
  rw [if_pos h4, herr]

theorem handleBody_success {s : Nat} (n : Nat) (sl : List ℚ) (d : Json)
    (h : s < 400) : handleBody s d n sl = ⟨.ok d, n, sl, false⟩ := by
  unfold handleBody
  rw [if_neg (by omega)]

theorem _request_eq (R : Nat) (m p : String) (jd : Option Json)
    (t : Nat → AttemptOutcome) :
    _request R m p jd t = requestGo t (_RETRY_BACKOFFS.take R) 0
      (1 + (_RETRY_BACKOFFS.take R).length) none [] := rfl

theorem backoffs_take_length (R : Nat) :
    (_RETRY_BACKOFFS.take R).length = min R 3 := by
  simp [_RETRY_BACKOFFS]

theorem request_reach (R : Nat) (m p : String) (jd : Option Json)
    (t : Nat → AttemptOutcome) (i : Nat)
    (hi : i ≤ (_RETRY_BACKOFFS.take R).length)
    (hpre : ∀ j, j < i → RetryOutcome (t j)) :
    ∃ l', _request R m p jd t =
      requestGo t (_RETRY_BACKOFFS.take R) i
        (1 + (_RETRY_BACKOFFS.take R).length - i) l'
        ((_RETRY_BACKOFFS.take R).take i) := by
  obtain ⟨l', h⟩ := requestGo_reach t (_RETRY_BACKOFFS.take R) i 0
    (1 + (_RETRY_BACKOFFS.take R).length) none [] (by omega) (by omega)
    (fun j _ h2 => hpre j (by omega))
  refine ⟨l', ?_⟩
  rw [_request_eq, h]
  simp

theorem request_all_retryable (R : Nat) (m p : String) (jd : Option Json)
    (t : Nat → AttemptOutcome)
    (h : ∀ j, ∃ st bd, t j = .response st bd ∧ st ∈ _RETRYABLE_STATUS) :
    (_request R m p jd t).attempts = (_RETRY_BACKOFFS.take R).length + 1 ∧
    (_request R m p jd t).sleeps = _RETRY_BACKOFFS.take R ∧
    (∃ e, (_request R m p jd t).outcome = .fbError e) := by
  obtain ⟨l', hre⟩ := request_reach R m p jd t (_RETRY_BACKOFFS.take R).length
    le_rfl (fun j _ => (h j).elim fun st hst =>
      hst.elim fun bd hbd => .inr ⟨st, bd, hbd.1, hbd.2⟩)
  rw [show 1 + (_RETRY_BACKOFFS.take R).length - (_RETRY_BACKOFFS.take R).length
      = 0 + 1 from by omega, List.take_length] at hre
  obtain ⟨st, bd, ht, hst⟩ := h (_RETRY_BACKOFFS.take R).length
  have hg : ¬ (st ∈ _RETRYABLE_STATUS ∧
      (_RETRY_BACKOFFS.take R).length < (_RETRY_BACKOFFS.take R).length) :=
    fun hc => absurd hc.2 (lt_irrefl _)
  cases bd with
  | ok d =>
    rw [hre, requestGo_term_ok 0 l' _ ht hg]
    exact ⟨handleBody_attempts _ _ _ _, handleBody_sleeps _ _ _ _,
      handleBody_error _ _ _ _ (retryable_ge_400 hst)⟩
  | error exc =>
    rw [hre, requestGo_term_badjson 0 l' _ ht hg]
    exact ⟨rfl, rfl, ⟨_, rfl⟩⟩

theorem request_all_conn (R : Nat) (m p : String) (jd : Option Json)
    (t : Nat → AttemptOutcome) (h : ∀ j, ∃ exc, t j = .connError exc) :
    (_request R m p jd t).attempts = (_RETRY_BACKOFFS.take R).length + 1 ∧
    (_request R m p jd t).sleeps = _RETRY_BACKOFFS.take R ∧
    (∃ e, (_request R m p jd t).outcome = .fbError e ∧
      e.is_connectivity_error = true ∧ e.status_code = none) := by
  obtain ⟨l', hre⟩ := request_reach R m p jd t (_RETRY_BACKOFFS.take R).length
    le_rfl (fun j _ => (h j).elim fun exc hexc => .inl ⟨exc, hexc⟩)
  rw [show 1 + (_RETRY_BACKOFFS.take R).length - (_RETRY_BACKOFFS.take R).length
      = 0 + 1 from by omega, List.take_length] at hre
  obtain ⟨exc, ht⟩ := h (_RETRY_BACKOFFS.take R).length
  rw [hre, requestGo_term_conn 0 l' _ ht (lt_irrefl _)]
  exact ⟨rfl, rfl, ⟨connectionFailed exc, rfl, rfl, rfl⟩⟩

theorem request_no_fallback (R : Nat) (m p : String) (jd : Option Json)
    (t : Nat → AttemptOutcome) : (_request R m p jd t).fromFallback = false := by
  rw [_request_eq]
  exact (requestGo_safe t (_RETRY_BACKOFFS.take R)
    (1 + (_RETRY_BACKOFFS.take R).length) 0 none [] (by omega) (by omega)).1

theorem request_ok_or_fbError (R : Nat) (m p : String) (jd : Option Json)
    (t : Nat → AttemptOutcome) :
    (∃ d, (_request R m p jd t).outcome = .ok d) ∨
    (∃ e, (_request R m p jd t).outcome = .fbError e) := by
  rw [_request_eq]
  exact (requestGo_safe t (_RETRY_BACKOFFS.take R)
    (1 + (_RETRY_BACKOFFS.take R).length) 0 none [] (by omega) (by omega)).2

/-! ### Claims -/

/-- Claim C1: with every attempt answered by a retryable status
(429/500/502/503/504), a single `_request` call makes at most
`max_retries + 1` attempts, performs exactly the configured backoff
sleeps in attempt-index order, and produces exactly one terminal
outcome, a raised error, never the post-loop fallback; in particular
with `max_retries = 3` and four consecutive 502 responses it makes
exactly 4 attempts and raises an API error with status code 502. -/
theorem claim_C1_retryable_bound (R : Nat) (m p : String) (jd : Option Json)
    (t : Nat → AttemptOutcome)
    (h : ∀ j, ∃ st bd, t j = .response st bd ∧ st ∈ _RETRYABLE_STATUS) :
    ((_request R m p jd t).attempts ≤ R + 1 ∧
     (_request R m p jd t).sleeps = _RETRY_BACKOFFS.take R ∧
     (∃ e, (_request R m p jd t).outcome = .fbError e) ∧
     (_request R m p jd t).fromFallback = false) ∧
    ((_request 3 "GET" "/intake/v/submissions/s1" none t502).attempts = 4 ∧
     (_request 3 "GET" "/intake/v/submissions/s1" none t502).outcome.statusCodeOf
        = some 502 ∧
     (_request 3 "GET" "/intake/v/submissions/s1" none t502).outcome.connFlagOf
        = false) := by
  obtain ⟨ha, hs, he⟩ := request_all_retryable R m p jd t h
  have hlen := backoffs_take_length R
  exact ⟨⟨by omega, hs, he, request_no_fallback R m p jd t⟩, rfl, rfl, rfl⟩

theorem claim_C1_witness :
    (_request 3 "GET" "/x" none t502).attempts ≤ 3 + 1 ∧
    (_request 3 "GET" "/x" none t502).sleeps = _RETRY_BACKOFFS.take 3 ∧
    (∃ e, (_request 3 "GET" "/x" none t502).outcome = .fbError e) := by
  have h := claim_C1_retryable_bound 3 "GET" "/x" none t502
    (fun _ => ⟨502, .ok body502, rfl, by decide⟩)
  exact ⟨h.1.1, h.1.2.1, h.1.2.2.1⟩

/-- Claim C2 counterexample: with `max_retries = 4` and a connection
error on every attempt, `_request` makes 4 attempts (the backoff list is
truncated to its 3 defaults), not the `R + 1 = 5` attempts the claim
states. -/
theorem claim_C2_counterexample :
    (_request 4 "GET" "/x" none tConnRefused).attempts = 4 ∧
    (_request 4 "GET" "/x" none tConnRefused).attempts ≠ 4 + 1 := by
  have h : (_request 4 "GET" "/x" none tConnRefused).attempts = 4 := rfl
  exact ⟨h, by omega⟩

/-- Claim C2 (amended): if the transport raises a connection error on
every attempt, `_request` makes exactly `min R 3 + 1` attempts and
raises a `FormBridgeError` with `is_connectivity_error = true` and no
status code. -/
theorem claim_C2_conn_exhaustion (R : Nat) (m p : String) (jd : Option Json)
    (t : Nat → AttemptOutcome) (h : ∀ j, ∃ exc, t j = .connError exc) :
    (_request R m p jd t).attempts = min R 3 + 1 ∧
    ∃ e, (_request R m p jd t).outcome = .fbError e ∧
      e.is_connectivity_error = true ∧ e.status_code = none := by
  obtain ⟨ha, _, he⟩ := request_all_conn R m p jd t h
  rw [backoffs_take_length] at ha
  exact ⟨ha, he⟩

theorem claim_C2_witness :
    (_request 5 "GET" "/x" none tConnRefused).attempts = min 5 3 + 1 ∧
    ∃ e, (_request 5 "GET" "/x" none tConnRefused).outcome = .fbError e ∧
      e.is_connectivity_error = true ∧ e.status_code = none :=
  claim_C2_conn_exhaustion 5 "GET" "/x" none tConnRefused
    (fun _ => ⟨"Connection refused", rfl⟩)

/-- Claim C3 counterexample: a single 401 response whose body is not
valid JSON makes exactly 1 attempt but raises a `FormBridgeError` that
does not carry the status code (and is flagged as a connectivity
error), not an API error carrying 401. -/
theorem claim_C3_counterexample :
    (_request 3 "GET" "/x" none t401html).attempts = 1 ∧
    (_request 3 "GET" "/x" none t401html).outcome.statusCodeOf ≠ some 401 ∧
    (_request 3 "GET" "/x" none t401html).outcome.connFlagOf = true := by
  refine ⟨rfl, ?_, rfl⟩
  have h : (_request 3 "GET" "/x" none t401html).outcome.statusCodeOf = none := rfl
  simp [h]

/-- Claim C3 (amended): a first response with a non-retryable status at
least 400 yields exactly 1 attempt, no sleep, and an immediately raised
`FormBridgeError`; when the body decodes as JSON and its `error` member
(if the body is an object that has one) is itself an object, the raised
error is the API error carrying that status code. -/
theorem claim_C3_non_retryable_immediate (R st : Nat) (m p : String)
    (jd : Option Json) (bd : Except String Json) (t : Nat → AttemptOutcome)
    (ht : t 0 = .response st bd) (hnr : st ∉ _RETRYABLE_STATUS)
    (h4 : 400 ≤ st) :
    (_request R m p jd t).attempts = 1 ∧
    (_request R m p jd t).sleeps = [] ∧
    (∃ e, (_request R m p jd t).outcome = .fbError e) ∧
    (∀ d ekvs, bd = .ok d → errorInfoOf d = .obj ekvs →
      (_request R m p jd t).outcome = .fbError (apiError st d ekvs)) := by
  rw [_request_eq,
    show 1 + (_RETRY_BACKOFFS.take R).length
      = (_RETRY_BACKOFFS.take R).length + 1 from by omega]
  have hg : ¬ (st ∈ _RETRYABLE_STATUS ∧ 0 < (_RETRY_BACKOFFS.take R).length) :=
    fun hc => hnr hc.1
  cases bd with
  | ok d =>
    rw [requestGo_term_ok _ none [] ht hg]
    refine ⟨handleBody_attempts _ _ _ _, handleBody_sleeps _ _ _ _,
      handleBody_error _ _ _ _ h4, ?_⟩
    intro d' ekvs hd herr
    injection hd with hd'
    subst hd'
    exact handleBody_api st (0 + 1) [] herr h4
  | error exc =>
    rw [requestGo_term_badjson _ none [] ht hg]
    refine ⟨rfl, rfl, ⟨_, rfl⟩, ?_⟩
    intro d ekvs hd herr
    exact Except.noConfusion hd

theorem claim_C3_witness :
    (_request 3 "GET" "/x" none t401json).attempts = 1 ∧
    (_request 3 "GET" "/x" none t401json).sleeps = [] ∧
    (_request 3 "GET" "/x" none t401json).outcome.statusCodeOf = some 401 := by
  have h := claim_C3_non_retryable_immediate 3 401 "GET" "/x" none
    (.ok body401) t401json rfl (by decide) (by decide)
  have happ := h.2.2.2 body401
    [("type", .str "unauthorized"), ("message", .str "bad key")] rfl rfl
  rw [happ]
  exact ⟨h.1, h.2.1, rfl⟩

/-- Claim C4: a response with a success status (< 400) at any reachable
attempt index immediately stops further attempts and `_request` returns
the decoded body; in particular with `max_retries = 3` and responses
`[429, 429, 200 {submissionId: s1, ...}]` the call succeeds after
exactly 3 attempts and the parsed submission's `submission_id` is
`"s1"`. -/
theorem claim_C4_success_stops (R i st : Nat) (m p : String)
    (jd : Option Json) (d : Json) (t : Nat → AttemptOutcome)
    (hi : i ≤ (_RETRY_BACKOFFS.take R).length)
    (hpre : ∀ j, j < i → RetryOutcome (t j))
    (ht : t i = .response st (.ok d)) (hlt : st < 400) :
    ((_request R m p jd t).outcome = .ok d ∧
     (_request R m p jd t).attempts = i + 1) ∧
    ((_request 3 "GET" "/intake/v/submissions/s1" none t429seq).attempts = 3 ∧
     (_request 3 "GET" "/intake/v/submissions/s1" none t429seq).outcome
        = .ok body200 ∧
     ((get_submission 3 "v" "s1" t429seq).submissionOf.map
        Submission.submission_id) = some (.str "s1")) := by
  obtain ⟨l', hre⟩ := request_reach R m p jd t i hi hpre
  obtain ⟨r', hr'⟩ : ∃ r', 1 + (_RETRY_BACKOFFS.take R).length - i = r' + 1 :=
    ⟨(_RETRY_BACKOFFS.take R).length - i, by omega⟩
  rw [hr'] at hre
  have hg : ¬ (st ∈ _RETRYABLE_STATUS ∧ i < (_RETRY_BACKOFFS.take R).length) :=
    fun hc => lt_400_not_retryable hlt hc.1
  rw [hre, requestGo_term_ok r' l' _ ht hg, handleBody_success _ _ _ hlt]
  exact ⟨⟨rfl, rfl⟩, rfl, rfl, rfl⟩

theorem claim_C4_witness :
    (_request 3 "GET" "/x" none t429seq).outcome = .ok body200 ∧
    (_request 3 "GET" "/x" none t429seq).attempts = 2 + 1 := by
  have h := claim_C4_success_stops 3 2 200 "GET" "/x" none body200 t429seq
    (by decide)
    (fun j hj => .inr ⟨429, .ok (.obj [("ok", .bool false),
      ("error", .obj [("type", .str "rate_limited")])]),
      by unfold t429seq; rw [if_pos hj], by decide⟩)
    rfl (by decide)
  exact h.1

/-- Claim C5 evaluation at the failing input: a 200 response whose body
fails to decode as JSON makes the generic `except Exception` branch
raise a `FormBridgeError` with `is_connectivity_error = true` after a
single attempt, even though the transport produced an HTTP response and
retries were not exhausted — the flag is not reserved for
transport-never-responded failures as the claim and the error class's
own docstring state. -/
theorem claim_C5_flag_on_unexpected :
    tDecodeFail 0 = .response 200 (.error "Expecting value: line 1 column 1 (char 0)") ∧
    (_request 3 "GET" "/x" none tDecodeFail).attempts = 1 ∧
    (_request 3 "GET" "/x" none tDecodeFail).outcome.connFlagOf = true ∧
    (_request 3 "GET" "/x" none tDecodeFail).outcome.statusCodeOf = none :=
  ⟨rfl, rfl, rfl, rfl⟩

/-- Claim C6 counterexample: a 400 response whose decoded body has a
non-dict `error` member (`{"ok": false, "error": "oops"}`) does not
yield an API error carrying status 400: `error_info.get` raises
`AttributeError`, which is wrapped as a connectivity-flagged unexpected
error with no status code. -/
theorem claim_C6_counterexample :
    t400strErr 0 = .response 400 (.ok (.obj [("ok", .bool false), ("error", .str "oops")])) ∧
    (_request 3 "GET" "/x" none t400strErr).outcome.statusCodeOf ≠ some 400 ∧
    (_request 3 "GET" "/x" none t400strErr).outcome.connFlagOf = true := by
  refine ⟨rfl, ?_, rfl⟩
  have h : (_request 3 "GET" "/x" none t400strErr).outcome.statusCodeOf = none := rfl
  simp [h]

/-- Claim C6 (amended): when the final (non-retried) response has status
at least 400 and a decoded body whose `error_info`
(`data.get("error", {})` for dict bodies, `{}` otherwise) is itself a
dict, `_request` raises an API error carrying that status code, the
`error.type` tag, the `error.message` text (defaulting to
`"HTTP <status>"` when absent), and the full decoded body. -/
theorem claim_C6_api_error_fields (R i st : Nat) (m p : String)
    (jd : Option Json) (d : Json) (ekvs : List (String × Json))
    (t : Nat → AttemptOutcome)
    (hi : i ≤ (_RETRY_BACKOFFS.take R).length)
    (hpre : ∀ j, j < i → RetryOutcome (t j))
    (ht : t i = .response st (.ok d))
    (hfin : st ∉ _RETRYABLE_STATUS ∨ i = (_RETRY_BACKOFFS.take R).length)
    (h4 : 400 ≤ st) (herr : errorInfoOf d = .obj ekvs) :
    (_request R m p jd t).outcome = .fbError
      { message := (dictGet ekvs "message").getD (.str ("HTTP " ++ toString st)),
        status_code := some st,
        error_type := dictGet ekvs "type",
        is_connectivity_error := false,
        response_data := some d } := by
  obtain ⟨l', hre⟩ := request_reach R m p jd t i hi hpre
  obtain ⟨r', hr'⟩ : ∃ r', 1 + (_RETRY_BACKOFFS.take R).length - i = r' + 1 :=
    ⟨(_RETRY_BACKOFFS.take R).length - i, by omega⟩
  rw [hr'] at hre
  have hg : ¬ (st ∈ _RETRYABLE_STATUS ∧ i < (_RETRY_BACKOFFS.take R).length) := by
    rcases hfin with hnr | hlen
    · exact fun hc => hnr hc.1
    · exact fun hc => absurd hc.2 (by omega)
  rw [hre, requestGo_term_ok r' l' _ ht hg]
  exact handleBody_api st (i + 1) _ herr h4

theorem claim_C6_witness :
    (_request 0 "GET" "/x" none t400json).outcome = .fbError
      { message := .str "bad request", status_code := some 400,
        error_type := some (.str "validation"),
        is_connectivity_error := false, response_data := some body400 } := by
  have h := claim_C6_api_error_fields 0 0 400 "GET" "/x" none body400
    [("type", .str "validation"), ("message", .str "bad request")] t400json
    (Nat.zero_le _) (fun j hj => absurd hj (by omega)) rfl
    (.inl (by decide)) (by decide) rfl
  exact h

/-- Claim C7: when a create-submission success response omits the intake
identifier (`intakeId` absent or the empty string), the returned
submission's `intake_id` is the `intake_id` argument the caller
supplied and every other field is exactly what `from_response`
parsed. -/
theorem claim_C7_backfill_intake (R : Nat) (intake : String)
    (fields : Option Json) (actor : Option Actor) (idem : Option String)
    (t : Nat → AttemptOutcome) (kvs : List (String × Json))
    (hreq : (_request R "POST" ("/intake/" ++ intake ++ "/submissions")
        (some (createBody fields actor idem)) t).outcome = .ok (.obj kvs))
    (hmiss : dictGet kvs "intakeId" = none ∨
      dictGet kvs "intakeId" = some (.str "")) :
    create_submission R intake fields actor idem t =
      .ok { Submission.from_response kvs with intake_id := .str intake } := by
  have hfal : (Submission.from_response kvs).intake_id.truthy = false := by
    show ((dictGet kvs "intakeId").getD (.str "")).truthy = false
    rcases hmiss with h | h <;> rw [h] <;> rfl
  simp only [create_submission, hreq]
  rw [hfal]
  simp

theorem claim_C7_witness :
    create_submission 0 "vendor" none none none tCreate =
      .ok { Submission.from_response kvsCreate with intake_id := .str "vendor" } :=
  claim_C7_backfill_intake 0 "vendor" none none none tCreate kvsCreate rfl
    (.inl rfl)

/-- Claim C8: the post-loop fallback of `_request` (client.py 289-295)
is unreachable — every run of the loop terminates inside an iteration
with a returned body or a raised `FormBridgeError`, never through the
code after the loop. -/
theorem claim_C8_fallback_unreachable (R : Nat) (m p : String)
    (jd : Option Json) (t : Nat → AttemptOutcome) :
    (_request R m p jd t).fromFallback = false ∧
    ((∃ d, (_request R m p jd t).outcome = .ok d) ∨
     (∃ e, (_request R m p jd t).outcome = .fbError e)) :=
  ⟨request_no_fallback R m p jd t, request_ok_or_fbError R m p jd t⟩

/-- Claim C10: the backoff sequence used by `_request` is
`_RETRY_BACKOFFS[:max_retries]`, the first `min R 3` entries of the
fixed defaults `[0.5, 1.0, 2.0]`, so a call makes at most
`min R 3 + 1 ≤ 4` attempts, and with `max_retries = 0` exactly 1
attempt. -/
theorem claim_C10_truncation (R : Nat) (m p : String) (jd : Option Json)
    (t : Nat → AttemptOutcome) :
    _RETRY_BACKOFFS = [1/2, 1, 2] ∧
    _RETRY_BACKOFFS.take R = _RETRY_BACKOFFS.take (min R 3) ∧
    (_request R m p jd t).attempts ≤ min R 3 + 1 ∧
    (_request R m p jd t).attempts ≤ 4 ∧
    (_request 0 m p jd t).attempts = 1 := by
  have hlen := backoffs_take_length R
  have hle := requestGo_attempts_le t (_RETRY_BACKOFFS.take R)
    (1 + (_RETRY_BACKOFFS.take R).length) 0 none []
  rw [← _request_eq R m p jd t] at hle
  refine ⟨rfl, ?_, by omega, by omega, ?_⟩
  · rcases le_total R 3 with h | h
    · rw [min_eq_left h]
    · rw [min_eq_right h,
        List.take_of_length_le (show _RETRY_BACKOFFS.length ≤ R from by
          rw [show _RETRY_BACKOFFS.length = 3 from rfl]; omega),
        show (3 : Nat) = _RETRY_BACKOFFS.length from rfl, List.take_length]
  · have h0 : _request 0 m p jd t = requestGo t [] 0 (0 + 1) none [] := rfl
    rw [h0]
    cases ht : t 0 with
    | connError exc =>
      rw [requestGo_term_conn 0 none [] ht (by simp)]
    | otherExc exc =>
      rw [requestGo_term_other 0 none [] ht]
    | response st bd =>
      have hg : ¬ (st ∈ _RETRYABLE_STATUS ∧ 0 < ([] : List ℚ).length) :=
        fun hc => absurd hc.2 (by simp)
      cases bd with
      | ok d =>
        rw [requestGo_term_ok 0 none [] ht hg]
        exact handleBody_attempts _ _ _ _
      | error exc =>
        rw [requestGo_term_badjson 0 none [] ht hg]

end FormBridge
